import Mathlib

/-!
# Verification of the sybil-provider attestation contract

Shallow embedding of `src/lib.rs` (a NEAR smart contract): the contract state
(`records` map and `handles` index), the three mutating entry points
(`register_social`, `update_access_key`, `update_contract_age`) and the read-only
query predicates, together with theorems settling the specification claims.

Modelling conventions:
- `u64`/`u32`/`u128` values are `Nat`; truncation (`as u64`) is `% 2 ^ 64` where
  it matters; the `u64` expiry addition is reduced `% 2 ^ 64`.
- NEAR's `UnorderedMap` and `HashMap` are association lists with key-unique
  lookup/insert (`mapGet` / `mapInsert`).
- The host environment (`env::block_height`, `env::block_timestamp`,
  `env::signer_account_id`) is an explicit `Env` record.  Ed25519 verification
  against the single admin key is abstracted as `Env.verify message signature`;
  signature decoding (`Signature::try_from`) succeeds exactly on 64-byte inputs.
- A Rust panic (`require!`, `assert!`, `expect`, `panic_str`) is modelled as
  `RawResult.panicked s e`, where `s` is the state at the moment of the panic,
  i.e. the writes the function had already performed.  The NEAR host reverts all
  writes of a panicked call, so the committed state after a panic is the entry
  state; `RawResult` keeps the pre-rollback state observable so that the order
  of writes and checks inside a call can be reasoned about.
- Arithmetic overflow/underflow checks are on (the standard NEAR release
  profile builds with `overflow-checks = true`), so the unchecked `u64`
  subtraction in the age predicates panics on underflow; predicates that can
  panic return `Option Bool`, with `none` for the panic.
-/

namespace SybilProvider

abbrev AccountId := String

/-- `SocialData` from src/lib.rs lines 26-32. -/
structure SocialData where
  issued_date : Nat
  handle : String
  proof : String
  expiry_date : Nat
deriving Repr, DecidableEq

/-- `UserData` from src/lib.rs lines 18-24; `socials` maps platform name to data. -/
structure UserData where
  access_key_count : Option Nat
  account_age : Option Nat
  socials : List (String × SocialData)
deriving Repr, DecidableEq

/-- Contract state from src/lib.rs lines 10-16: `records` maps account id to its
`UserData`; `handles` maps (platform, handle) to the holding account id. -/
structure Contract where
  records : List (AccountId × UserData)
  handles : List ((String × String) × AccountId)
deriving Repr, DecidableEq

/-- Key-unique association-list lookup (the `get` of `UnorderedMap`/`HashMap`). -/
def mapGet {α β : Type} [DecidableEq α] : List (α × β) → α → Option β
  | [], _ => none
  | (k', v) :: rest, k => if k = k' then some v else mapGet rest k

/-- Key-unique association-list insert-or-replace (the `insert` of
`UnorderedMap`/`HashMap`). -/
def mapInsert {α β : Type} [DecidableEq α] : List (α × β) → α → β → List (α × β)
  | [], k, v => [(k, v)]
  | (k', v') :: rest, k, v =>
      if k = k' then (k, v) :: rest else (k', v') :: mapInsert rest k v

/-- Rust's `Option::map_or`. -/
def optMapOr {α β : Type} (o : Option α) (d : β) (f : α → β) : β :=
  match o with
  | none => d
  | some a => f a

/-- The host environment: block height, block timestamp (nanoseconds), the
signer account id, and the admin-key signature check (message, signature bytes). -/
structure Env where
  block_height : Nat
  block_timestamp : Nat
  signer : AccountId
  verify : String → List Nat → Bool

/-- The panic causes of the three mutating entry points, in the order the source
raises them: "expired request", "handle already registered", "invalid SIg.",
"unverified data", "incorrect proof". -/
inductive Err where
  | expiredRequest
  | handleConflict
  | malformedSignature
  | unauthorizedSignature
  | duplicateProof
deriving Repr, DecidableEq

/-- Outcome of a mutating call before host-level rollback: `ok` with the final
state, or `panicked` with the state at the moment of the panic. -/
inductive RawResult where
  | ok (s : Contract)
  | panicked (s : Contract) (e : Err)
deriving Repr, DecidableEq

/-- The state a caller observes after the call: the NEAR host reverts every
write of a panicked call, so a panic leaves the entry state committed. -/
def committed (c : Contract) : RawResult → Contract
  | .ok s => s
  | .panicked _ _ => c

/-- The 3-month validity window from src/lib.rs line 61:
`3 * 30 * 24 * 60 * 60 * 1_000_000_000` nanoseconds. -/
def validityWindow : Nat := 3 * 30 * 24 * 60 * 60 * 1000000000

/-- Message signed for `register_social` (src/lib.rs line 58):
`account_id + "," + platform + "," + handle + "," + proof + "," + max_block_height`. -/
def registerMessage (account_id platform handle proof : String)
    (max_block_height : Nat) : String :=
  account_id ++ "," ++ platform ++ "," ++ handle ++ "," ++ proof ++ ","
    ++ Nat.repr max_block_height

/-- Message signed for the scalar updates (src/lib.rs lines 88 and 112):
`account_id + "," + account_info + "," + max_block_height`. -/
def scalarMessage (account_id : String) (account_info max_block_height : Nat) :
    String :=
  account_id ++ "," ++ Nat.repr account_info ++ "," ++ Nat.repr max_block_height

/-- The handle-uniqueness gate of `register_social` (src/lib.rs lines 53-55):
run only when the requester already has a record; passes when the handles index
has no entry for (platform, handle) or the requester's OWN attestation for the
platform has expired.  (It never consults who the index entry points at.) -/
def conflictOk (env : Env) (c : Contract) (platform handle : String) : Bool :=
  match mapGet c.records env.signer with
  | none => true
  | some ud =>
      (!(mapGet c.handles (platform, handle)).isSome)
        || optMapOr (mapGet ud.socials platform) false
             (fun x => decide (x.expiry_date < env.block_timestamp))

/-- The duplicate-submission gate (src/lib.rs lines 64-66): the requester's
existing attestation for the platform, live or not, carries the identical
proof string. -/
def isDuplicate (ud : UserData) (platform proof : String) : Bool :=
  optMapOr (mapGet ud.socials platform) false (fun x => x.proof == proof)

/-- The `SocialData` written by an accepted registration (src/lib.rs lines 61
and 67/75): issued now, expiring a `validityWindow` later (`u64` arithmetic). -/
def newSocial (env : Env) (handle proof : String) : SocialData :=
  ⟨env.block_timestamp, handle, proof,
    (env.block_timestamp + validityWindow) % 2 ^ 64⟩

/-- `register_social` (src/lib.rs lines 47-81).  Order of operations, as in the
source: deadline `require!`; conflict `assert!` (only when the requester has a
record); signature decode (`try_from`, 64 bytes); signature verification of the
canonical message; unconditional `handles.insert`; duplicate-proof check; then
the record upsert. -/
def register_social (env : Env) (c : Contract) (platform : String)
    (signature : List Nat) (handle : String) (proof : String)
    (max_block_height : Nat) : RawResult :=
  if env.block_height < max_block_height then
    if conflictOk env c platform handle then
      if signature.length = 64 then
        if env.verify (registerMessage env.signer platform handle proof
            max_block_height) signature then
          match mapGet c.records env.signer with
          | some ud =>
              if isDuplicate ud platform proof then
                RawResult.panicked { c with handles := mapInsert c.handles (platform, handle) env.signer } Err.duplicateProof
              else
                RawResult.ok { records := mapInsert c.records env.signer { ud with socials := mapInsert ud.socials platform (newSocial env handle proof) }, handles := mapInsert c.handles (platform, handle) env.signer }
          | none =>
              RawResult.ok { records := mapInsert c.records env.signer ⟨none, none, [(platform, newSocial env handle proof)]⟩, handles := mapInsert c.handles (platform, handle) env.signer }
        else RawResult.panicked c Err.unauthorizedSignature
      else RawResult.panicked c Err.malformedSignature
    else RawResult.panicked c Err.handleConflict
  else RawResult.panicked c Err.expiredRequest

/-- `update_access_key` (src/lib.rs lines 83-102): deadline, signature decode,
signature verification, then overwrite `access_key_count` (creating the record
with the other field unset and `socials` empty when absent). -/
def update_access_key (env : Env) (c : Contract) (signature : List Nat)
    (account_info : Nat) (max_block_height : Nat) : RawResult :=
  if env.block_height < max_block_height then
    if signature.length = 64 then
      if env.verify (scalarMessage env.signer account_info max_block_height)
          signature then
        match mapGet c.records env.signer with
        | some ud =>
            RawResult.ok { c with records := mapInsert c.records env.signer { ud with access_key_count := some account_info } }
        | none =>
            RawResult.ok { c with records := mapInsert c.records env.signer ⟨some account_info, none, []⟩ }
      else RawResult.panicked c Err.unauthorizedSignature
    else RawResult.panicked c Err.malformedSignature
  else RawResult.panicked c Err.expiredRequest

/-- `update_contract_age` (src/lib.rs lines 105-126): same pipeline, overwriting
`account_age`. -/
def update_contract_age (env : Env) (c : Contract) (signature : List Nat)
    (account_info : Nat) (max_block_height : Nat) : RawResult :=
  if env.block_height < max_block_height then
    if signature.length = 64 then
      if env.verify (scalarMessage env.signer account_info max_block_height)
          signature then
        match mapGet c.records env.signer with
        | some ud =>
            RawResult.ok { c with records := mapInsert c.records env.signer { ud with account_age := some account_info } }
        | none =>
            RawResult.ok { c with records := mapInsert c.records env.signer ⟨none, some account_info, []⟩ }
      else RawResult.panicked c Err.unauthorizedSignature
    else RawResult.panicked c Err.malformedSignature
  else RawResult.panicked c Err.expiredRequest

/-- `connected_to_5_contracts` (src/lib.rs lines 128-133): `none` models the
`unwrap()` panic when the record exists with `access_key_count` unset. -/
def connected_to_5_contracts (c : Contract) (account_id : AccountId) :
    Option Bool :=
  match mapGet c.records account_id with
  | some d =>
      match d.access_key_count with
      | some n => some (decide (5 ≤ n))
      | none => none
  | none => some false

/-- `connected_to_20_contracts` (src/lib.rs lines 135-140). -/
def connected_to_20_contracts (c : Contract) (account_id : AccountId) :
    Option Bool :=
  match mapGet c.records account_id with
  | some d =>
      match d.access_key_count with
      | some n => some (decide (20 ≤ n))
      | none => none
  | none => some false

/-- `connected_to_10_contracts` (src/lib.rs lines 159-164). -/
def connected_to_10_contracts (c : Contract) (account_id : AccountId) :
    Option Bool :=
  match mapGet c.records account_id with
  | some d =>
      match d.access_key_count with
      | some n => some (decide (10 ≤ n))
      | none => none
  | none => some false

/-- `connected_to_lens` (src/lib.rs lines 142-150): requires the `"lens"` entry
to exist AND its `expiry_date` to be strictly above the current timestamp. -/
def connected_to_lens (env : Env) (c : Contract) (account_id : AccountId) :
    Bool :=
  match mapGet c.records account_id with
  | some d =>
      match mapGet d.socials "lens" with
      | some l => decide (env.block_timestamp < l.expiry_date)
      | none => false
  | none => false

/-- `connected_to_farcaster` (src/lib.rs lines 152-157): mere existence of the
`"farcaster"` entry, with no expiry check. -/
def connected_to_farcaster (c : Contract) (account_id : AccountId) : Bool :=
  match mapGet c.records account_id with
  | some d => (mapGet d.socials "farcaster").isSome
  | none => false

/-- `connected_to_platform` (src/lib.rs lines 177-182): mere existence of the
platform entry, with no expiry check. -/
def connected_to_platform (c : Contract) (account_id : AccountId)
    (platform : String) : Bool :=
  match mapGet c.records account_id with
  | some d => (mapGet d.socials platform).isSome
  | none => false

/-- The common body of the age predicates: `now - (account_age as u64)` compared
against a threshold; `none` models the `unwrap()` panic on an unset
`account_age` and the checked-`u64` subtraction panic on underflow.
`strict` selects `>` (six_month_old) versus `>=` (the other four). -/
def agePredicate (env : Env) (c : Contract) (account_id : AccountId)
    (threshold : Nat) (strict : Bool) : Option Bool :=
  match mapGet c.records account_id with
  | some d =>
      match d.account_age with
      | some age =>
          if age % 2 ^ 64 ≤ env.block_timestamp then
            some (if strict then
                    decide (threshold < env.block_timestamp - age % 2 ^ 64)
                  else
                    decide (threshold ≤ env.block_timestamp - age % 2 ^ 64))
          else none
      | none => none
  | none => some false

/-- `six_month_old` (src/lib.rs lines 166-175): strict `>` comparison. -/
def six_month_old (env : Env) (c : Contract) (account_id : AccountId) :
    Option Bool :=
  agePredicate env c account_id (6 * 30 * 24 * 60 * 60 * 1000000000) true

/-- `is_two_year_old` (src/lib.rs lines 184-192). -/
def is_two_year_old (env : Env) (c : Contract) (account_id : AccountId) :
    Option Bool :=
  agePredicate env c account_id (2 * 365 * 24 * 60 * 60 * 1000000000) false

/-- `is_one_year_old` (src/lib.rs lines 194-202). -/
def is_one_year_old (env : Env) (c : Contract) (account_id : AccountId) :
    Option Bool :=
  agePredicate env c account_id (365 * 24 * 60 * 60 * 1000000000) false

/-- `is_three_month_old` (src/lib.rs lines 204-212). -/
def is_three_month_old (env : Env) (c : Contract) (account_id : AccountId) :
    Option Bool :=
  agePredicate env c account_id (3 * 30 * 24 * 60 * 60 * 1000000000) false

/-- `is_a_month_old` (src/lib.rs lines 214-222). -/
def is_a_month_old (env : Env) (c : Contract) (account_id : AccountId) :
    Option Bool :=
  agePredicate env c account_id (30 * 24 * 60 * 60 * 1000000000) false

/-! ## Derived observations and helper lemmas -/

/-- Whether a raw call result is a success. -/
def RawResult.isOk : RawResult → Bool
  | .ok _ => true
  | .panicked _ _ => false

/-- The state carried by a raw result (final state on success, the
pre-rollback state at the panic otherwise). -/
def stateOf : RawResult → Contract
  | .ok s => s
  | .panicked s _ => s

/-- The handle an account holds live (non-expired at `now`) on a platform:
`some h` exactly when the account's record carries a social attestation for the
platform whose `expiry_date` is strictly in the future. -/
def liveHandle (c : Contract) (acct platform : String) (now : Nat) :
    Option String :=
  match mapGet c.records acct with
  | none => none
  | some d =>
      match mapGet d.socials platform with
      | none => none
      | some sd => if now < sd.expiry_date then some sd.handle else none

/-- The stored `expiry_date` of an account's attestation for a platform. -/
def recordExpiry (c : Contract) (acct platform : String) : Option Nat :=
  (mapGet c.records acct).bind
    (fun d => (mapGet d.socials platform).map (fun sd => sd.expiry_date))

theorem mapGet_insert_self {α β : Type} [DecidableEq α] (m : List (α × β))
    (k : α) (v : β) : mapGet (mapInsert m k v) k = some v := by
  induction m with
  | nil => simp [mapGet, mapInsert]
  | cons hd tl ih =>
      obtain ⟨a, b⟩ := hd
      by_cases h : k = a
      · simp [mapInsert, mapGet, h]
      · simp [mapInsert, mapGet, h, ih]

theorem mapGet_insert_ne {α β : Type} [DecidableEq α] (m : List (α × β))
    (k k' : α) (v : β) (h : k' ≠ k) :
    mapGet (mapInsert m k v) k' = mapGet m k' := by
  induction m with
  | nil => simp [mapGet, mapInsert, h]
  | cons hd tl ih =>
      obtain ⟨a, b⟩ := hd
      by_cases hk : k = a
      · subst hk
        simp [mapInsert, mapGet, h]
      · simp only [mapInsert, if_neg hk, mapGet]
        by_cases h2 : k' = a <;> simp [h2, ih]

/-! ## Concrete fixtures for witnesses and counterexamples -/

/-- A well-formed (64-byte) signature encoding. -/
def sig64 : List Nat := List.replicate 64 0

/-- A signature oracle that accepts everything: models requests the admin key
really signed. -/
def acceptAll : String → List Nat → Bool := fun _ _ => true

/-- The freshly deployed contract: both maps empty. -/
def c0 : Contract := ⟨[], []⟩

def envAlice : Env := ⟨5, 1000, "alice", acceptAll⟩

def envAlice2 : Env := ⟨5, 2000, "alice", acceptAll⟩

def envBob : Env := ⟨5, 2000, "bob", acceptAll⟩

/-- State after alice successfully registers ("lens", "h1") at timestamp 1000. -/
def cA : Contract := stateOf (register_social envAlice c0 "lens" sig64 "h1" "p1" 10)

/-! ## Claims -/

/-- C1: the uniqueness invariant fails on the code.  At `cA` the handles index
maps ("lens", "h1") to alice, whose attestation is live at timestamp 2000, and
bob has no record; the spec requires bob's registration of ("lens", "h1") to be
rejected with a handle conflict, but `register_social` runs its conflict check
only when the requester already has a record, so bob's request is accepted and
afterwards both distinct identities hold a live attestation for ("lens", "h1"). -/
theorem C1_code_bug :
    mapGet cA.handles ("lens", "h1") = some "alice" ∧
    liveHandle cA "alice" "lens" 2000 = some "h1" ∧
    mapGet cA.records "bob" = none ∧
    (register_social envBob cA "lens" sig64 "h1" "p2" 10).isOk = true ∧
    liveHandle (stateOf (register_social envBob cA "lens" sig64 "h1" "p2" 10))
      "alice" "lens" 2000 = some "h1" ∧
    liveHandle (stateOf (register_social envBob cA "lens" sig64 "h1" "p2" 10))
      "bob" "lens" 2000 = some "h1" ∧
    ("alice" : String) ≠ "bob" := by
  decide

/-- C2 counterexample: alice registered ("lens", "h1") at timestamp 1000 and
renews it at timestamp 2000 — validly signed, fresh deadline, distinct proof,
her attestation still live.  The conflict gate sees the index entry occupied
and her own attestation unexpired (it never compares the holder to the
requester), so the renewal is rejected with the handle-conflict failure,
refuting the claim that renewal never fails with a handle conflict. -/
theorem C2_counterexample :
    register_social envAlice2 cA "lens" sig64 "h1" "p2" 10 =
      RawResult.panicked cA Err.handleConflict := by
  decide

/-- C2 amended: re-registration of the same (identity, platform, handle) with a
validly signed, non-expired request and a distinct proof succeeds — with the new
`expires_at` no earlier than the old — exactly when the requester's own
attestation for the platform has already expired; while it is still live the
call fails with the handle-conflict failure. -/
theorem C2_renewal (env : Env) (c : Contract) (platform handle proof : String)
    (sig : List Nat) (mh : Nat) (ud : UserData) (sd : SocialData)
    (hrec : mapGet c.records env.signer = some ud)
    (hsoc : mapGet ud.socials platform = some sd)
    (hidx : (mapGet c.handles (platform, handle)).isSome = true)
    (hsig : sig.length = 64)
    (hver : env.verify (registerMessage env.signer platform handle proof mh)
        sig = true)
    (hmh : env.block_height < mh)
    (hproof : sd.proof ≠ proof)
    (hnw : env.block_timestamp + validityWindow < 2 ^ 64) :
    (sd.expiry_date < env.block_timestamp →
      (register_social env c platform sig handle proof mh).isOk = true ∧
      recordExpiry (stateOf (register_social env c platform sig handle proof mh))
          env.signer platform = some (env.block_timestamp + validityWindow) ∧
      sd.expiry_date ≤ env.block_timestamp + validityWindow) ∧
    (env.block_timestamp ≤ sd.expiry_date →
      register_social env c platform sig handle proof mh =
        RawResult.panicked c Err.handleConflict) := by
  have hconf : conflictOk env c platform handle =
      decide (sd.expiry_date < env.block_timestamp) := by
    simp [conflictOk, hrec, hsoc, optMapOr, hidx]
  have hdup : isDuplicate ud platform proof = false := by
    simp [isDuplicate, hsoc, optMapOr]
    exact hproof
  constructor
  · intro hlt
    have hc : conflictOk env c platform handle = true := by
      rw [hconf]; exact decide_eq_true hlt
    have hres : register_social env c platform sig handle proof mh =
        RawResult.ok { records := mapInsert c.records env.signer { ud with socials := mapInsert ud.socials platform (newSocial env handle proof) }, handles := mapInsert c.handles (platform, handle) env.signer } := by
      simp only [register_social, hmh, hc, hsig, hver, hrec, hdup, if_true,
        ite_true, Bool.false_eq_true, if_false, ite_false]
    rw [hres]
    refine ⟨rfl, ?_, le_trans (le_of_lt hlt) (Nat.le_add_right _ _)⟩
    simp [stateOf, recordExpiry, mapGet_insert_self, newSocial,
      Nat.mod_eq_of_lt hnw]
    exact hnw
  · intro hge
    have hc : conflictOk env c platform handle = false := by
      rw [hconf]; simp [Nat.not_lt.mpr hge]
    simp only [register_social, hmh, hc, if_true, ite_true,
      Bool.false_eq_true, if_false, ite_false]

/-- C2 witness fixtures: alice's lens attestation expired at 500; she renews at
timestamp 1000. -/
def udW : UserData := ⟨none, none, [("lens", ⟨0, "h1", "p1", 500⟩)]⟩

def sdW : SocialData := ⟨0, "h1", "p1", 500⟩

def cW : Contract := ⟨[("alice", udW)], [(("lens", "h1"), "alice")]⟩

def envW : Env := ⟨5, 1000, "alice", acceptAll⟩

/-- C2 witness: the amended renewal theorem at the concrete expired fixture. -/
theorem C2_renewal_witness :
    (register_social envW cW "lens" sig64 "h1" "p2" 10).isOk = true ∧
    recordExpiry (stateOf (register_social envW cW "lens" sig64 "h1" "p2" 10))
        "alice" "lens" = some (1000 + validityWindow) ∧
    sdW.expiry_date ≤ 1000 + validityWindow :=
  (C2_renewal envW cW "lens" "h1" "p2" sig64 10 udW sdW (by decide) (by decide)
    (by decide) (by decide) (by decide) (by decide) (by decide) (by decide)).1
    (by decide)

/-- C3 counterexample fixture: alice holds a live ("lens", "h1") attestation
with proof "p" and submits a registration for the different handle "h2" on the
same platform with the same proof. -/
def cDup : Contract :=
  ⟨[("alice", ⟨none, none, [("lens", ⟨0, "h1", "p", 999999⟩)]⟩)],
    [(("lens", "h1"), "alice")]⟩

def envDup : Env := ⟨5, 1000, "alice", acceptAll⟩

/-- C3 counterexample: the duplicate-proof rejection fires only AFTER the
handles-index write, so it is not the case that all validation is performed
before any store write: at the moment of the panic the handles index already
holds the new ("lens", "h2") entry, which the entry state did not have. -/
theorem C3_counterexample :
    register_social envDup cDup "lens" sig64 "h2" "p" 10 =
      RawResult.panicked
        { cDup with handles := mapInsert cDup.handles ("lens", "h2") "alice" }
        Err.duplicateProof ∧
    mapInsert cDup.handles ("lens", "h2") "alice" ≠ cDup.handles := by
  decide

/-- C3 amended: scalar updates never write before a rejection, and
`register_social` writes before a rejection only in the duplicate-proof case —
there the handles index has already been rewritten at the panic, though the
records map is still untouched; in every case the committed state (after the
host rolls back a panicked call) equals the entry state. -/
theorem C3_atomic (env : Env) (c s : Contract) (e : Err)
    (platform handle proof : String) (sig : List Nat) (n a mh : Nat) :
    (register_social env c platform sig handle proof mh =
        RawResult.panicked s e →
      s.records = c.records ∧ (e ≠ Err.duplicateProof → s = c) ∧
      committed c (register_social env c platform sig handle proof mh) = c) ∧
    (update_access_key env c sig n mh = RawResult.panicked s e →
      s = c ∧ committed c (update_access_key env c sig n mh) = c) ∧
    (update_contract_age env c sig a mh = RawResult.panicked s e →
      s = c ∧ committed c (update_contract_age env c sig a mh) = c) := by
  refine ⟨?_, ?_, ?_⟩ <;> intro h
  · have hcom : committed c (register_social env c platform sig handle proof mh)
        = c := by rw [h]; rfl
    unfold register_social at h
    repeat' split at h
    all_goals first
      | exact RawResult.noConfusion h
      | (injection h with h1 h2; subst h1; subst h2;
         refine ⟨rfl, ?_, hcom⟩; intro hne; first | rfl | exact absurd rfl hne)
  · have hcom : committed c (update_access_key env c sig n mh) = c := by
      rw [h]; rfl
    unfold update_access_key at h
    repeat' split at h
    all_goals first
      | exact RawResult.noConfusion h
      | (injection h with h1 h2; subst h1; exact ⟨rfl, hcom⟩)
  · have hcom : committed c (update_contract_age env c sig a mh) = c := by
      rw [h]; rfl
    unfold update_contract_age at h
    repeat' split at h
    all_goals first
      | exact RawResult.noConfusion h
      | (injection h with h1 h2; subst h1; exact ⟨rfl, hcom⟩)

/-- C3 witness: the amended atomicity theorem applied at a concrete expired
request: the panic state is the entry state and the committed state is the
entry state. -/
theorem C3_atomic_witness :
    c0.records = c0.records ∧
    (Err.expiredRequest ≠ Err.duplicateProof → c0 = c0) ∧
    committed c0 (register_social ⟨10, 0, "alice", acceptAll⟩ c0 "lens" sig64
      "h" "p" 5) = c0 :=
  (C3_atomic ⟨10, 0, "alice", acceptAll⟩ c0 c0 Err.expiredRequest "lens" "h"
    "p" sig64 0 0 5).1 (by decide)

/-- C4: any of the three mutating calls whose `max_block_height` is at most the
current block height panics with the expired-request failure, with the entry
state untouched, whatever the signature bytes are. -/
theorem C4_deadline (env : Env) (c : Contract) (platform handle proof : String)
    (sig : List Nat) (n a mh : Nat) (h : mh ≤ env.block_height) :
    register_social env c platform sig handle proof mh =
      RawResult.panicked c Err.expiredRequest ∧
    update_access_key env c sig n mh = RawResult.panicked c Err.expiredRequest ∧
    update_contract_age env c sig a mh =
      RawResult.panicked c Err.expiredRequest := by
  simp [register_social, update_access_key, update_contract_age,
    Nat.not_lt.mpr h]

/-- C4 witness: deadline 5 at height 10 is rejected as expired everywhere. -/
theorem C4_deadline_witness :
    register_social ⟨10, 0, "alice", acceptAll⟩ c0 "lens" sig64 "h" "p" 5 =
      RawResult.panicked c0 Err.expiredRequest ∧
    update_access_key ⟨10, 0, "alice", acceptAll⟩ c0 sig64 7 5 =
      RawResult.panicked c0 Err.expiredRequest ∧
    update_contract_age ⟨10, 0, "alice", acceptAll⟩ c0 sig64 7 5 =
      RawResult.panicked c0 Err.expiredRequest :=
  C4_deadline ⟨10, 0, "alice", acceptAll⟩ c0 "lens" "h" "p" sig64 7 7 5
    (by decide)

/-- C5 counterexample fixture: bob's record exists (created, e.g., by an
accepted `update_contract_age`) with `access_key_count` unset. -/
def cNoKeys : Contract := ⟨[("bob", ⟨none, some 5, []⟩)], []⟩

/-- C5 counterexample: on a record with `access_key_count` unset the three
threshold predicates do not return false — they hit the `unwrap()` panic
(modelled `none`), contradicting the claim that only an age query crashes. -/
theorem C5_counterexample :
    connected_to_5_contracts cNoKeys "bob" = none ∧
    connected_to_5_contracts cNoKeys "bob" ≠ some false ∧
    connected_to_10_contracts cNoKeys "bob" = none ∧
    connected_to_20_contracts cNoKeys "bob" = none := by
  decide

/-- C5 amended: every query predicate returns false when the record is absent,
and the socials predicates fail closed on a missing platform entry; but when
the record exists with the queried scalar unset, the access-key-count threshold
predicates crash on `unwrap()` exactly as the age predicates do. -/
theorem C5_fail_closed (env : Env) (c : Contract) (acct : AccountId)
    (d : UserData) (platform : String) :
    (mapGet c.records acct = none →
      connected_to_5_contracts c acct = some false ∧
      connected_to_10_contracts c acct = some false ∧
      connected_to_20_contracts c acct = some false ∧
      connected_to_lens env c acct = false ∧
      connected_to_farcaster c acct = false ∧
      connected_to_platform c acct platform = false ∧
      six_month_old env c acct = some false ∧
      is_one_year_old env c acct = some false ∧
      is_two_year_old env c acct = some false ∧
      is_three_month_old env c acct = some false ∧
      is_a_month_old env c acct = some false) ∧
    (mapGet c.records acct = some d → d.access_key_count = none →
      connected_to_5_contracts c acct = none ∧
      connected_to_10_contracts c acct = none ∧
      connected_to_20_contracts c acct = none) ∧
    (mapGet c.records acct = some d → d.account_age = none →
      six_month_old env c acct = none ∧
      is_one_year_old env c acct = none ∧
      is_two_year_old env c acct = none ∧
      is_three_month_old env c acct = none ∧
      is_a_month_old env c acct = none) ∧
    (mapGet c.records acct = some d → mapGet d.socials platform = none →
      connected_to_platform c acct platform = false) := by
  refine ⟨fun h => ?_, fun h h2 => ?_, fun h h2 => ?_, fun h h2 => ?_⟩ <;>
    simp [connected_to_5_contracts, connected_to_10_contracts,
      connected_to_20_contracts, connected_to_lens, connected_to_farcaster,
      connected_to_platform, six_month_old, is_one_year_old, is_two_year_old,
      is_three_month_old, is_a_month_old, agePredicate, *]

/-- C5 witness: the amended fail-closed theorem at the crashing fixture. -/
theorem C5_fail_closed_witness :
    connected_to_5_contracts cNoKeys "bob" = none ∧
    connected_to_10_contracts cNoKeys "bob" = none ∧
    connected_to_20_contracts cNoKeys "bob" = none :=
  (C5_fail_closed envW cNoKeys "bob" ⟨none, some 5, []⟩ "lens").2.1 (by decide)
    (by decide)

/-- C6 counterexample fixture: alice's lens attestation ("h1", proof "p")
expired at 500; at timestamp 1000 she resubmits the identical proof. -/
def cExpired : Contract :=
  ⟨[("alice", ⟨none, none, [("lens", ⟨0, "h1", "p", 500⟩)]⟩)],
    [(("lens", "h1"), "alice")]⟩

def envLate : Env := ⟨5, 1000, "alice", acceptAll⟩

/-- C6 counterexample: the requester's attestation is NOT live (it expired at
500 < 1000), yet the resubmission of the identical proof is still rejected as a
duplicate — the duplicate gate never checks liveness, refuting the claim's
"if and only if the requester holds a live attestation". -/
theorem C6_counterexample :
    liveHandle cExpired "alice" "lens" 1000 = none ∧
    register_social envLate cExpired "lens" sig64 "h1" "p" 10 =
      RawResult.panicked cExpired Err.duplicateProof := by
  decide

/-- C6 amended: once a request passes the deadline, conflict and signature
gates, it is rejected as a duplicate — with a failure distinct from the
handle-conflict failure — exactly when the requester's existing attestation for
the platform, live or expired, carries a proof identical to the submitted one. -/
theorem C6_duplicate (env : Env) (c : Contract)
    (platform handle proof : String) (sig : List Nat) (mh : Nat)
    (ud : UserData) (sd : SocialData)
    (hrec : mapGet c.records env.signer = some ud)
    (hsoc : mapGet ud.socials platform = some sd)
    (hgate : conflictOk env c platform handle = true)
    (hsig : sig.length = 64)
    (hver : env.verify (registerMessage env.signer platform handle proof mh)
        sig = true)
    (hmh : env.block_height < mh) :
    (register_social env c platform sig handle proof mh =
        RawResult.panicked
          { c with handles := mapInsert c.handles (platform, handle) env.signer }
          Err.duplicateProof
      ↔ sd.proof = proof) ∧
    Err.duplicateProof ≠ Err.handleConflict := by
  refine ⟨?_, by decide⟩
  by_cases hp : sd.proof = proof
  · have hdup : isDuplicate ud platform proof = true := by
      simp [isDuplicate, hsoc, optMapOr, hp]
    simp only [register_social, hmh, hgate, hsig, hver, hrec, hdup, if_true,
      ite_true]
    simp [hp]
  · have hdup : isDuplicate ud platform proof = false := by
      simp [isDuplicate, hsoc, optMapOr]
      exact hp
    simp only [register_social, hmh, hgate, hsig, hver, hrec, hdup, if_true,
      ite_true, Bool.false_eq_true, if_false, ite_false]
    simp [hp]

/-- C6 witness: the amended duplicate characterization at the expired fixture:
the identical proof is rejected as a duplicate even though the attestation has
expired. -/
theorem C6_duplicate_witness :
    (register_social envLate cExpired "lens" sig64 "h1" "p" 10 =
        RawResult.panicked
          { cExpired with
              handles := mapInsert cExpired.handles ("lens", "h1") "alice" }
          Err.duplicateProof
      ↔ ("p" : String) = "p") ∧
    Err.duplicateProof ≠ Err.handleConflict :=
  C6_duplicate envLate cExpired "lens" "h1" "p" sig64 10
    ⟨none, none, [("lens", ⟨0, "h1", "p", 500⟩)]⟩ ⟨0, "h1", "p", 500⟩
    (by decide) (by decide) (by decide) (by decide) (by decide) (by decide)

/-- Modelled from the spec's words for the refinement comparison of C7: the
"comma-joined concatenation" of a list of fields, "fields in this exact order,
decimal for integers". -/
def specCanonicalMessage : List String → String
  | [] => ""
  | [f] => f
  | f :: rest => f ++ "," ++ specCanonicalMessage rest

/-- C7: the byte string checked against the authority signature is the
comma-joined concatenation, in this exact order with integers in decimal, of
identity, platform, handle, proof, max_valid_height for `register_social`
(the `registerMessage` the verifier receives there), and of identity, value,
max_valid_height for the two scalar updates (their `scalarMessage`). -/
theorem C7_message (id platform handle proof : String) (v mh : Nat) :
    registerMessage id platform handle proof mh =
      specCanonicalMessage [id, platform, handle, proof, Nat.repr mh] ∧
    scalarMessage id v mh =
      specCanonicalMessage [id, Nat.repr v, Nat.repr mh] := by
  constructor <;>
    simp [registerMessage, scalarMessage, specCanonicalMessage,
      String.append_assoc]

/-- C9 fixture: carol's lens and farcaster attestations both expired at 500;
the current timestamp is 1000. -/
def cC9 : Contract :=
  ⟨[("carol", ⟨none, none,
      [("lens", ⟨0, "h1", "p1", 500⟩), ("farcaster", ⟨0, "h2", "p2", 500⟩)]⟩)],
    []⟩

def envC9 : Env := ⟨5, 1000, "carol", acceptAll⟩

/-- C9: liveness is checked inconsistently across the platform predicates —
`connected_to_lens` is true only when the lens entry exists AND its
`expiry_date` is strictly above the current timestamp, while
`connected_to_farcaster` and `connected_to_platform` are true as soon as the
entry exists, expired or not. -/
theorem C9_liveness (env : Env) (c : Contract) (acct : AccountId)
    (d : UserData) (sd : SocialData) (p : String)
    (hrec : mapGet c.records acct = some d) :
    (mapGet d.socials "lens" = some sd →
      (connected_to_lens env c acct = true ↔
        env.block_timestamp < sd.expiry_date)) ∧
    (mapGet d.socials "farcaster" = some sd →
      connected_to_farcaster c acct = true) ∧
    (mapGet d.socials p = some sd →
      connected_to_platform c acct p = true) := by
  refine ⟨fun h => ?_, fun h => ?_, fun h => ?_⟩ <;>
    simp [connected_to_lens, connected_to_farcaster, connected_to_platform,
      hrec, h]

/-- C9 witness: at the concrete expired fixture the lens predicate is false
while the farcaster and generic predicates are true on equally expired
entries. -/
theorem C9_liveness_witness :
    (connected_to_lens envC9 cC9 "carol" = true ↔ (1000 : Nat) < 500) ∧
    (connected_to_farcaster cC9 "carol" = true) ∧
    (connected_to_platform cC9 "carol" "farcaster" = true) :=
  ⟨(C9_liveness envC9 cC9 "carol"
      ⟨none, none, [("lens", ⟨0, "h1", "p1", 500⟩),
        ("farcaster", ⟨0, "h2", "p2", 500⟩)]⟩ ⟨0, "h1", "p1", 500⟩ "lens"
      (by decide)).1 (by decide),
   (C9_liveness envC9 cC9 "carol"
      ⟨none, none, [("lens", ⟨0, "h1", "p1", 500⟩),
        ("farcaster", ⟨0, "h2", "p2", 500⟩)]⟩ ⟨0, "h2", "p2", 500⟩ "farcaster"
      (by decide)).2.1 (by decide),
   (C9_liveness envC9 cC9 "carol"
      ⟨none, none, [("lens", ⟨0, "h1", "p1", 500⟩),
        ("farcaster", ⟨0, "h2", "p2", 500⟩)]⟩ ⟨0, "h2", "p2", 500⟩ "farcaster"
      (by decide)).2.2 (by decide)⟩

/-- The age predicates are defined exactly when the truncated stored age does
not exceed the current timestamp (otherwise the `u64` subtraction underflows). -/
theorem agePredicate_isSome (env : Env) (c : Contract) (acct : AccountId)
    (threshold : Nat) (strict : Bool) (d : UserData) (a : Nat)
    (hrec : mapGet c.records acct = some d) (hage : d.account_age = some a) :
    (agePredicate env c acct threshold strict).isSome = true ↔
      a % 2 ^ 64 ≤ env.block_timestamp := by
  simp only [agePredicate, hrec, hage]
  split <;> simp_all

/-- C10: each age predicate computes the `u64` subtraction
`block_timestamp - (account_age as u64)` and is total exactly when the stored
age, reduced modulo 2^64, does not exceed the current block timestamp; when it
exceeds it the subtraction underflows and the call crashes (`none`). -/
theorem C10_age_underflow (env : Env) (c : Contract) (acct : AccountId)
    (d : UserData) (a : Nat)
    (hrec : mapGet c.records acct = some d) (hage : d.account_age = some a) :
    ((six_month_old env c acct).isSome = true ↔
      a % 2 ^ 64 ≤ env.block_timestamp) ∧
    ((is_one_year_old env c acct).isSome = true ↔
      a % 2 ^ 64 ≤ env.block_timestamp) ∧
    ((is_two_year_old env c acct).isSome = true ↔
      a % 2 ^ 64 ≤ env.block_timestamp) ∧
    ((is_three_month_old env c acct).isSome = true ↔
      a % 2 ^ 64 ≤ env.block_timestamp) ∧
    ((is_a_month_old env c acct).isSome = true ↔
      a % 2 ^ 64 ≤ env.block_timestamp) :=
  ⟨agePredicate_isSome env c acct _ _ d a hrec hage,
   agePredicate_isSome env c acct _ _ d a hrec hage,
   agePredicate_isSome env c acct _ _ d a hrec hage,
   agePredicate_isSome env c acct _ _ d a hrec hage,
   agePredicate_isSome env c acct _ _ d a hrec hage⟩

/-- C10 fixture: dave's stored `account_age` is 1000 while the current
timestamp is 500 — the subtraction underflows in every age predicate. -/
def cFuture : Contract := ⟨[("dave", ⟨none, some 1000, []⟩)], []⟩

def envEarly : Env := ⟨5, 500, "dave", acceptAll⟩

/-- C10 witness: at the underflow fixture every age predicate is undefined. -/
theorem C10_age_underflow_witness :
    ((six_month_old envEarly cFuture "dave").isSome = true ↔
      (1000 : Nat) % 2 ^ 64 ≤ 500) ∧
    ((is_one_year_old envEarly cFuture "dave").isSome = true ↔
      (1000 : Nat) % 2 ^ 64 ≤ 500) ∧
    ((is_two_year_old envEarly cFuture "dave").isSome = true ↔
      (1000 : Nat) % 2 ^ 64 ≤ 500) ∧
    ((is_three_month_old envEarly cFuture "dave").isSome = true ↔
      (1000 : Nat) % 2 ^ 64 ≤ 500) ∧
    ((is_a_month_old envEarly cFuture "dave").isSome = true ↔
      (1000 : Nat) % 2 ^ 64 ≤ 500) :=
  C10_age_underflow envEarly cFuture "dave" ⟨none, some 1000, []⟩ 1000
    (by decide) (by decide)

/-- C8: field isolation.  An accepted `update_access_key` changes only the
requester's `access_key_count` (its `account_age` and `socials` and every other
identity's record and the whole handles index are unchanged, and an absent
record is created with `account_age` unset and `socials` empty); an accepted
`update_contract_age` symmetrically changes only `account_age`; an accepted
`register_social` changes only `socials[platform]` of the requester's record
plus the (platform, handle) index entry, preserving both scalar fields and
every other platform entry. -/
theorem C8_field_isolation (env : Env) (c c' : Contract)
    (platform handle proof : String) (sig : List Nat) (n a mh : Nat)
    (b : AccountId) (q : String) :
    (update_access_key env c sig n mh = RawResult.ok c' →
      c'.handles = c.handles ∧
      (b ≠ env.signer → mapGet c'.records b = mapGet c.records b) ∧
      ∃ ud', mapGet c'.records env.signer = some ud' ∧
        ud'.access_key_count = some n ∧
        ud'.account_age =
          (mapGet c.records env.signer).bind UserData.account_age ∧
        ud'.socials = optMapOr (mapGet c.records env.signer) [] UserData.socials) ∧
    (update_contract_age env c sig a mh = RawResult.ok c' →
      c'.handles = c.handles ∧
      (b ≠ env.signer → mapGet c'.records b = mapGet c.records b) ∧
      ∃ ud', mapGet c'.records env.signer = some ud' ∧
        ud'.account_age = some a ∧
        ud'.access_key_count =
          (mapGet c.records env.signer).bind UserData.access_key_count ∧
        ud'.socials = optMapOr (mapGet c.records env.signer) [] UserData.socials) ∧
    (register_social env c platform sig handle proof mh = RawResult.ok c' →
      c'.handles = mapInsert c.handles (platform, handle) env.signer ∧
      (b ≠ env.signer → mapGet c'.records b = mapGet c.records b) ∧
      ∃ ud', mapGet c'.records env.signer = some ud' ∧
        ud'.access_key_count =
          (mapGet c.records env.signer).bind UserData.access_key_count ∧
        ud'.account_age =
          (mapGet c.records env.signer).bind UserData.account_age ∧
        mapGet ud'.socials platform = some (newSocial env handle proof) ∧
        (q ≠ platform → mapGet ud'.socials q =
          (mapGet c.records env.signer).bind (fun u => mapGet u.socials q))) := by
  refine ⟨?_, ?_, ?_⟩ <;> intro h
  · unfold update_access_key at h
    repeat' split at h
    any_goals exact RawResult.noConfusion h
    all_goals (
      injection h with h1
      subst h1
      refine ⟨rfl, fun hb => mapGet_insert_ne _ _ _ _ hb,
        ⟨_, mapGet_insert_self _ _ _, rfl, ?_, ?_⟩⟩ <;>
        simp_all [optMapOr])
  · unfold update_contract_age at h
    repeat' split at h
    any_goals exact RawResult.noConfusion h
    all_goals (
      injection h with h1
      subst h1
      refine ⟨rfl, fun hb => mapGet_insert_ne _ _ _ _ hb,
        ⟨_, mapGet_insert_self _ _ _, rfl, ?_, ?_⟩⟩ <;>
        simp_all [optMapOr])
  · unfold register_social at h
    repeat' split at h
    any_goals exact RawResult.noConfusion h
    all_goals (
      injection h with h1
      subst h1
      refine ⟨rfl, fun hb => mapGet_insert_ne _ _ _ _ hb,
        ⟨_, mapGet_insert_self _ _ _, ?_, ?_, ?_, fun hq => ?_⟩⟩)
    · simp_all
    · simp_all
    · exact mapGet_insert_self _ _ _
    · rw [mapGet_insert_ne _ _ _ _ hq]
      simp_all
    · simp_all
    · simp_all
    · simp [mapGet]
    · simp_all [mapGet]

/-- C8 witness fixture: the state after alice's accepted `update_access_key`
with count 7 on the fresh contract. -/
def cK : Contract := ⟨[("alice", ⟨some 7, none, []⟩)], []⟩

/-- C8 witness: the frame theorem at a concrete accepted `update_access_key`:
the handles index is unchanged, bob's record is unchanged, and alice's record
carries the new count with `account_age` unset and `socials` empty. -/
theorem C8_field_isolation_witness :
    cK.handles = c0.handles ∧
    (("bob" : AccountId) ≠ "alice" →
      mapGet cK.records "bob" = mapGet c0.records "bob") ∧
    ∃ ud', mapGet cK.records "alice" = some ud' ∧
      ud'.access_key_count = some 7 ∧
      ud'.account_age = (mapGet c0.records "alice").bind UserData.account_age ∧
      ud'.socials = optMapOr (mapGet c0.records "alice") [] UserData.socials :=
  (C8_field_isolation envAlice c0 cK "lens" "h" "p" sig64 7 0 10 "bob" "q").1
    (by decide)

end SybilProvider
